import Mathlib

/-!
Verification development for the `tool-use-with-intervention` cookbook of the
autogen repository: an actor-style agent runtime with an intervention pipeline
and a tool-call caller loop.

The notebook under `src/` defines `Message`, `ToolUseAgent` (with its
`handle_user_message` handler) and `ToolInterventionHandler.on_send`; those are
embedded here directly from the source.  The runtime core
(`SingleThreadedAgentRuntime`), the agent registry, the intervention pipeline
driver, `CancellationToken` and `tool_agent_caller_loop` are part of the
repository's `autogen_core` package, which is not among the provided source
files; they are modelled from the specification (each such definition is marked
`Modelled from the spec:`).

Side effects are made explicit: the interactive `input()` call becomes an
oracle `String → String` from prompt to reply, the model client and the tool
sends become oracle fields of a `LoopEnv`, and the state of the cancellation
token at each suspension point becomes a function `Nat → Bool`.
-/

namespace Autogen

/-! ## Identity and message model -/

/-- Type `AgentType`: an opaque, string-like tag identifying a class of agent
(dataclass with a single field `type` in the source). -/
structure AgentType where
  type : String
deriving DecidableEq, Repr

/-- Type `AgentId`: a pair of a type tag and a key, identifying one instance of an
agent type.  Construction from an `AgentType` normalizes to its string. -/
structure AgentId where
  type : String
  key : String
deriving DecidableEq, Repr

/-- The notebook's `Message` dataclass: a single string field `content`. -/
structure Message where
  content : String
deriving DecidableEq, Repr

/-- Type `FunctionCall { id, name, arguments }`: a request, emitted by the reasoning
component, to invoke a named tool with serialized arguments. -/
structure FunctionCall where
  id : String
  name : String
  arguments : String
deriving DecidableEq, Repr

/-- Modelled from the spec: `ToolResult { call_id, content, is_error }` — the
outcome of executing a `FunctionCall`, correlated by id. -/
structure ToolResult where
  call_id : String
  content : String
  is_error : Bool
deriving DecidableEq, Repr

/-- Type `ToolException`: the failure raised by `ToolInterventionHandler.on_send`
in the source, carrying `content`, `call_id` and `name` keyword arguments. -/
structure ToolException where
  content : String
  call_id : String
  name : String
deriving DecidableEq, Repr

/-- Type `SystemMessage` from `autogen_core.models`: a system prompt. -/
structure SystemMessage where
  content : String
deriving DecidableEq, Repr

/-- Conversation messages (`LLMMessage`): the history exchanged with the
reasoning component.  An assistant turn carries either final text or a list of
function calls; a function-results turn carries the correlated tool results. -/
inductive LLMMessage where
  | system (content : String)
  | user (content : String) (source : String)
  | assistantText (content : String) (source : String)
  | assistantCalls (calls : List FunctionCall) (source : String)
  | functionResults (results : List ToolResult)
deriving DecidableEq, Repr

/-- The runtime type of a message's `.content` attribute, as inspected by the
notebook's `assert isinstance(final_response, str)`. -/
inductive MessageContent where
  | text (s : String)
  | calls (cs : List FunctionCall)
  | results (rs : List ToolResult)
deriving DecidableEq, Repr

/-- The `.content` attribute of a conversation message. -/
def LLMMessage.content : LLMMessage → MessageContent
  | .system c => .text c
  | .user c _ => .text c
  | .assistantText c _ => .text c
  | .assistantCalls cs _ => .calls cs
  | .functionResults rs => .results rs

/-- Application-level message payloads routed by the runtime in this cookbook:
the chat `Message`, a `FunctionCall` sent to the tool agent, and a
`ToolResult` response. -/
inductive AppMessage where
  | funcCall (fc : FunctionCall)
  | chat (m : Message)
  | toolResult (r : ToolResult)
deriving DecidableEq, Repr

/-! ## Python string helpers used by the intervention handler

`user_input.strip().lower()`: `strip` removes surrounding whitespace,
`lower` lowercases (modelled on the ASCII range, which covers the
`"y"` comparison made by the source). -/

/-- Characters removed by Python's `str.strip()` with no arguments
(ASCII whitespace). -/
def isPySpace (c : Char) : Bool :=
  c = ' ' || c = '\t' || c = '\n' || c = '\r' || c = '\x0b' || c = '\x0c'

/-- Python `str.strip()`: drop leading and trailing whitespace. -/
def pyStrip (s : String) : String :=
  String.mk (((s.data.dropWhile isPySpace).reverse.dropWhile isPySpace).reverse)

/-- Python `str.lower()` on the ASCII range. -/
def pyToLower (s : String) : String :=
  String.mk (s.data.map Char.toLower)

/-! ## ToolInterventionHandler (from the source notebook) -/

/-- The prompt string built by `ToolInterventionHandler.on_send` for a
`FunctionCall` message. -/
def interventionPrompt (fc : FunctionCall) : String :=
  "Function call: " ++ fc.name ++ "\nArguments: " ++ fc.arguments ++
    "\nDo you want to execute the tool? (y/n): "

namespace ToolInterventionHandler

/-- Function `ToolInterventionHandler.on_send` from the source notebook.  `input` is the
oracle for the interactive `input()` call, mapping the printed prompt to the
user's reply.  For a `FunctionCall`, the user is prompted; if the reply,
stripped and lowercased, is not `"y"`, a `ToolException` is raised (modelled as
`Except.error`); otherwise, and for every non-`FunctionCall` message, the
message is returned unchanged. -/
def on_send (input : String → String) (message : AppMessage) :
    Except ToolException AppMessage :=
  match message with
  | .funcCall fc =>
    let user_input := input (interventionPrompt fc)
    if pyToLower (pyStrip user_input) ≠ "y" then
      .error { content := "User denied tool execution.", call_id := fc.id, name := fc.name }
    else
      .ok message
  | _ => .ok message

end ToolInterventionHandler

/-! ## Errors of the runtime (spec §7) -/

/-- Modelled from the spec: the error kinds of §7.  `interventionAborted`
carries the raising handler's failure payload (here always a
`ToolException`, the only failure type the cookbook's handler raises). -/
inductive RTError where
  | runtimeNotRunning
  | unhandledMessageType
  | interventionAborted (payload : ToolException)
  | toolExecutionFailed (call_id : String) (name : String) (reason : String)
  | cancelled
  | handlerFailed
deriving DecidableEq, Repr

/-! ## Intervention pipeline (spec §4.2)

Modelled from the spec: `SingleThreadedAgentRuntime`'s intervention pipeline
driver is not among the provided sources.  A hook returns either the (possibly
transformed) message to continue the chain, the `drop` sentinel (subsequent
handlers are skipped, the operation completes as a no-op), or a failure (the
pipeline aborts the whole call chain; no message reaches the recipient). -/

/-- Modelled from the spec: the outcome of one intervention hook — forward
(possibly transformed), drop, or fail. -/
inductive HookResult (α : Type) where
  | forward (m : α)
  | drop
  | fail (e : ToolException)
deriving DecidableEq, Repr

/-- An `on_send` intervention hook, as a function on application messages. -/
def Hook : Type := AppMessage → HookResult AppMessage

/-- Adapter from the source's `ToolInterventionHandler.on_send` to a pipeline
hook: a raised `ToolException` becomes `fail`, a returned message is
forwarded.  (`DefaultInterventionHandler` hooks never drop.) -/
def toolInterventionHook (input : String → String) : Hook :=
  fun m =>
    match ToolInterventionHandler.on_send input m with
    | .ok m' => .forward m'
    | .error e => .fail e

/-- Modelled from the spec: run the handler chain strictly in registration
order.  Returns the chain's outcome together with the number of hooks actually
invoked (so that "subsequent handlers are skipped" is observable). -/
def runPipeline : List Hook → AppMessage → HookResult AppMessage × Nat
  | [], m => (.forward m, 0)
  | h :: hs, m =>
    match h m with
    | .forward m' =>
      let r := runPipeline hs m'
      (r.1, r.2 + 1)
    | .drop => (.drop, 1)
    | .fail e => (.fail e, 1)

/-! ## Agent registry, router and runtime core (spec §4.3, §4.4)

Modelled from the spec: `SingleThreadedAgentRuntime` is not among the provided
sources.  Agent instances are created lazily on first dispatch to a
`(type, key)` pair; instance identity is made observable by a `uid` drawn from
a monotone counter.  Deliveries that actually reach an agent's handler are
recorded in a log, so "the target agent's handler is never invoked" is a
statement about the log. -/

/-- An agent instance: identity (`uid`) plus the id it was created for. -/
structure AgentInstance where
  uid : Nat
  id : AgentId
deriving DecidableEq, Repr

/-- Lifecycle states of the runtime. -/
inductive RunState where
  | stopped
  | running
deriving DecidableEq, Repr

/-- Modelled from the spec: the runtime's state — lifecycle flag, registered
agent types, intervention handler chain, lazily created instances, a fresh-uid
counter, topic subscriptions, and the log of messages delivered to agent
handlers. -/
structure Runtime where
  state : RunState
  registered : List String
  handlers : List Hook
  instances : List (AgentId × AgentInstance)
  nextUid : Nat
  subscriptions : List (String × AgentId)
  deliveries : List (AgentId × AppMessage)

/-- Look up the instance bound to an `AgentId` in the instance map. -/
def findInst : List (AgentId × AgentInstance) → AgentId → Option AgentInstance
  | [], _ => none
  | (k, v) :: rest, i => if k = i then some v else findInst rest i

/-- Modelled from the spec: resolve or lazily construct the agent instance for
an id.  On the first dispatch to a registered `(type, key)` pair a fresh
instance is created and remembered; later dispatches return the remembered
instance unchanged.  `none` when the type was never registered. -/
def getAgent (rt : Runtime) (i : AgentId) : Option (Runtime × AgentInstance) :=
  match findInst rt.instances i with
  | some a => some (rt, a)
  | none =>
    if rt.registered.contains i.type then
      let a : AgentInstance := { uid := rt.nextUid, id := i }
      some ({ rt with instances := (i, a) :: rt.instances, nextUid := rt.nextUid + 1 }, a)
    else
      none

/-- Modelled from the spec: how a `send` call completes — a delivered
response, the drop no-op, or a failure.  Drop is a distinct constructor, not
an error. -/
inductive SendOutcome where
  | delivered (response : AppMessage)
  | dropped
  | failed (e : RTError)
deriving DecidableEq, Repr

/-- Behaviour oracle for routed agents: what an agent instance's handler
returns for a message, or `none` when no handler is registered for the
message's type (the "unhandled message type" failure). -/
def AgentBehavior : Type := AgentInstance → AppMessage → Option AppMessage

/-- Modelled from the spec: `start()` — transition to `Running`. -/
def Runtime.start (rt : Runtime) : Runtime :=
  { rt with state := .running }

/-- Modelled from the spec: `stop()` — transition to `Stopped` after draining
in-flight deliveries (the single-threaded model has none pending between
calls). -/
def Runtime.stop (rt : Runtime) : Runtime :=
  { rt with state := .stopped }

/-- Modelled from the spec: `send(message, recipient)`.  Fails with
`runtimeNotRunning` while stopped (and has no effect); otherwise runs the
intervention pipeline's `on_send` chain; on `drop`, returns the no-op outcome
immediately; on a handler failure, aborts with `interventionAborted` before
any message reaches the recipient; otherwise resolves (lazily creating) the
recipient instance, records the delivery, and invokes the agent's handler. -/
def Runtime.send_message (beh : AgentBehavior) (rt : Runtime) (message : AppMessage)
    (recipient : AgentId) : Runtime × SendOutcome :=
  if rt.state = .stopped then
    (rt, .failed .runtimeNotRunning)
  else
    match (runPipeline rt.handlers message).1 with
    | .fail e => (rt, .failed (.interventionAborted e))
    | .drop => (rt, .dropped)
    | .forward m' =>
      match getAgent rt recipient with
      | none => (rt, .failed .unhandledMessageType)
      | some (rt', a) =>
        let rt'' := { rt' with deliveries := rt'.deliveries ++ [(recipient, m')] }
        match beh a m' with
        | some resp => (rt'', .delivered resp)
        | none => (rt'', .failed .unhandledMessageType)

/-- Deliver a publish fan-out message to one subscriber (fire-and-forget:
the handler's response, if any, is discarded, so only the delivery log
matters). -/
def deliverOne (rt : Runtime) (i : AgentId) (m : AppMessage) : Runtime :=
  match getAgent rt i with
  | none => rt
  | some (rt', _) => { rt' with deliveries := rt'.deliveries ++ [(i, m)] }

/-- Modelled from the spec: `publish(message, topic)` — fire-and-forget
broadcast to the topic's subscribers; fails with `runtimeNotRunning` while
stopped (and has no effect). -/
def Runtime.publish (rt : Runtime) (message : AppMessage)
    (topic : String) : Runtime × Option RTError :=
  if rt.state = .stopped then
    (rt, some .runtimeNotRunning)
  else
    (((rt.subscriptions.filter (fun p => p.1 = topic)).map (fun p => p.2)).foldl
      (fun r i => deliverOne r i message) rt, none)

/-! ## CancellationToken (spec §3, §5)

Modelled from the spec: `CancellationToken` is not among the provided sources.
It is a shared flag; `cancel` is its only mutating operation, so the
"once signaled, never un-signals" invariant is a statement about every
sequence of operations. -/

/-- Modelled from the spec: `CancellationToken` — a shared flag, advisory
cooperative signaling. -/
structure CancellationToken where
  signaled : Bool
deriving DecidableEq, Repr

/-- Signal the token. -/
def CancellationToken.cancel (t : CancellationToken) : CancellationToken :=
  { t with signaled := true }

/-- The mutating operations available on a token (`cancel` is the only one;
observers only read the flag). -/
inductive TokenOp where
  | cancel
deriving DecidableEq, Repr

/-- Apply one token operation. -/
def CancellationToken.applyOp (t : CancellationToken) : TokenOp → CancellationToken
  | .cancel => t.cancel

/-- Apply a sequence of token operations in order. -/
def CancellationToken.applyOps (t : CancellationToken) (ops : List TokenOp) :
    CancellationToken :=
  ops.foldl CancellationToken.applyOp t

/-! ## Tool-call caller loop (spec §4.5)

Modelled from the spec: `tool_agent_caller_loop` is not among the provided
sources.  The loop alternates between the reasoning component and tool sends
until final text is produced.  Its environment packages the external effects:
the reasoning component (`model`), the routed send of one `FunctionCall` to
the tool agent through the intervention pipeline (`sendTool`), and the state
of the shared cancellation token at the n-th suspension point
(`cancelledAt`), which the loop observes before every reasoning call and
before every tool send. -/

/-- Tool schemas are opaque to the loop; they are only forwarded to the
reasoning component. -/
def ToolSchema : Type := String

/-- What the reasoning component returns for a history: final text, or an
ordered sequence of function calls (spec §6). -/
inductive LLMResult where
  | finalText (s : String)
  | calls (cs : List FunctionCall)
deriving DecidableEq, Repr

/-- The caller loop's environment of external effects. -/
structure LoopEnv where
  model : List LLMMessage → List ToolSchema → LLMResult
  sendTool : FunctionCall → Except RTError ToolResult
  cancelledAt : Nat → Bool

/-- How a caller-loop invocation ends: normally with the accumulated history,
with a propagated error, or not at all within the given fuel (modelling
divergence). -/
inductive LoopResult where
  | ok (messages : List LLMMessage)
  | err (e : RTError)
  | outOfFuel
deriving DecidableEq, Repr

/-- Modelled from the spec: execute one turn's function calls in the order
given.  Each send is a suspension point: the token is observed first and a
signaled token fails the point with `cancelled`.  A `toolExecutionFailed`
send is recoverable — folded into an error-flagged `ToolResult` correlated by
the failure's call id — while every other failure (`interventionAborted`,
`cancelled`, ...) is fatal to the whole loop.  Returns the outcome, the next
suspension-point index, and the list of calls actually issued (in order). -/
def runCalls (env : LoopEnv) : Nat → List FunctionCall →
    Except RTError (List ToolResult) × Nat × List FunctionCall
  | n, [] => (.ok [], n, [])
  | n, c :: rest =>
    if env.cancelledAt n then
      (.error .cancelled, n, [])
    else
      match env.sendTool c with
      | .ok r =>
        match runCalls env (n + 1) rest with
        | (.ok rs, n', tr) => (.ok (r :: rs), n', c :: tr)
        | (.error e, n', tr) => (.error e, n', c :: tr)
      | .error (.toolExecutionFailed cid _ reason) =>
        match runCalls env (n + 1) rest with
        | (.ok rs, n', tr) =>
          (.ok ({ call_id := cid, content := "Error: " ++ reason, is_error := true } :: rs),
            n', c :: tr)
        | (.error e, n', tr) => (.error e, n', c :: tr)
      | .error e => (.error e, n, [c])

/-- Modelled from the spec: `tool_agent_caller_loop`.  Repeatedly: observe the
token, invoke the reasoning component with the current history; final text
terminates the loop, returning the accumulated history plus the final
message; function calls are each sent to the tool agent (via `runCalls`),
their results appended to the history in the same order, and the loop
repeats.  Returns the loop outcome together with the list of tool sends
actually issued. -/
def tool_agent_caller_loop (env : LoopEnv) :
    Nat → List LLMMessage → List ToolSchema → Nat → LoopResult × List FunctionCall
  | 0, _, _, _ => (.outOfFuel, [])
  | fuel + 1, history, schema, n =>
    if env.cancelledAt n then
      (.err .cancelled, [])
    else
      match env.model history schema with
      | .finalText s => (.ok (history ++ [.assistantText s "assistant"]), [])
      | .calls cs =>
        match runCalls env (n + 1) cs with
        | (.ok rs, n', tr) =>
          let next := tool_agent_caller_loop env fuel
            (history ++ [.assistantCalls cs "assistant", .functionResults rs]) schema n'
          (next.1, tr ++ next.2)
        | (.error e, _, tr) => (.err e, tr)

/-- The composite send of one `FunctionCall` from the caller loop to the tool
agent through a pipeline consisting of the cookbook's
`ToolInterventionHandler`: a `ToolException` raised by `on_send` aborts the
send as `interventionAborted` before the tool executes; otherwise the tool
agent executes the call (`toolExec` oracle). -/
def interventionSend (input : String → String)
    (toolExec : FunctionCall → ToolResult) (c : FunctionCall) :
    Except RTError ToolResult :=
  match ToolInterventionHandler.on_send input (.funcCall c) with
  | .error ex => .error (.interventionAborted ex)
  | .ok _ => .ok (toolExec c)

/-- A caller-loop environment whose tool sends pass through the cookbook's
intervention handler (token never signaled). -/
def interventionEnv (model : List LLMMessage → List ToolSchema → LLMResult)
    (input : String → String) (toolExec : FunctionCall → ToolResult) : LoopEnv :=
  { model := model
    sendTool := interventionSend input toolExec
    cancelledAt := fun _ => false }

/-! ## ToolUseAgent (from the source notebook) -/

/-- State of a `ToolUseAgent` after `__init__` (the model client lives in the
loop environment). -/
structure ToolUseAgent where
  id : AgentId
  description : String
  system_messages : List SystemMessage
  tool_schema : List ToolSchema
  tool_agent_id : AgentId

namespace ToolUseAgent

/-- Constructor `ToolUseAgent.__init__` from the source notebook: stores the constructor
arguments and fixes the tool agent's id as
`AgentId(type=tool_agent_type, key=self.id.key)`. -/
def init (description : String) (system_messages : List SystemMessage)
    (tool_schema : List ToolSchema) (tool_agent_type : AgentType)
    (selfId : AgentId) : ToolUseAgent :=
  { id := selfId
    description := description
    system_messages := system_messages
    tool_schema := tool_schema
    tool_agent_id := { type := tool_agent_type.type, key := selfId.key } }

/-- How `handle_user_message` can fail: a propagated caller-loop error, the
`assert isinstance(final_response, str)` failing (or `[-1]` on an empty
list), or the loop exceeding the fuel bound. -/
inductive HandlerError where
  | loopError (e : RTError)
  | assertionFailed
  | outOfFuel
deriving DecidableEq, Repr

/-- Handler `ToolUseAgent.handle_user_message` from the source notebook: build the
session as the single `UserMessage` from the incoming message's content, run
`tool_agent_caller_loop`, take the last output message's `.content`, assert
it is a string, and wrap it in a `Message`. -/
def handle_user_message (agent : ToolUseAgent) (env : LoopEnv) (fuel : Nat)
    (message : Message) : Except HandlerError Message :=
  let session : List LLMMessage := [.user message.content "User"]
  match (tool_agent_caller_loop env fuel session agent.tool_schema 0).1 with
  | .ok output_messages =>
    match output_messages.getLast? with
    | none => .error .assertionFailed
    | some last =>
      match last.content with
      | .text s => .ok { content := s }
      | _ => .error .assertionFailed
  | .err e => .error (.loopError e)
  | .outOfFuel => .error .outOfFuel

end ToolUseAgent

/-! ## Concrete sample values (used to evaluate the theorems on closed inputs) -/

/-- A user who always answers `"n"` at the approval prompt. -/
def denyInput : String → String := fun _ => "n"

/-- A user who always answers `" Y "` (stripped and lowercased to `"y"`). -/
def allowInput : String → String := fun _ => " Y "

/-- The function call of the spec's denial scenario. -/
def sampleCall : FunctionCall :=
  { id := "1", name := "python_exec", arguments := "print(1)" }

/-- A second sample function call. -/
def sampleCall2 : FunctionCall :=
  { id := "2", name := "python_exec", arguments := "print(2)" }

/-- The tool agent id used in the samples. -/
def sampleId : AgentId := { type := "tool_executor_agent", key := "default" }

/-- A routed-agent behaviour that handles no message type. -/
def sampleBeh : AgentBehavior := fun _ _ => none

/-- An intervention hook that drops every message. -/
def dropHook : Hook := fun _ => .drop

/-- A freshly started runtime with the tool executor type registered and no
intervention handlers. -/
def baseRt : Runtime :=
  { state := .running
    registered := ["tool_executor_agent"]
    handlers := []
    instances := []
    nextUid := 0
    subscriptions := []
    deliveries := [] }

/-- Runtime `baseRt` with the always-drop hook installed. -/
def rtDrop : Runtime := { baseRt with handlers := [dropHook] }

/-- Runtime `baseRt` with the cookbook's intervention handler installed, driven by the
always-denying user. -/
def rtIntervene : Runtime := { baseRt with handlers := [toolInterventionHook denyInput] }

/-- A stopped runtime. -/
def rtStopped : Runtime := { baseRt with state := .stopped }

/-- A tool-agent oracle that executes every call successfully. -/
def okExec : FunctionCall → ToolResult :=
  fun c => { call_id := c.id, content := "ok", is_error := false }

/-- An environment whose reasoning component immediately returns final text. -/
def envFinal : LoopEnv :=
  { model := fun _ _ => .finalText "done"
    sendTool := fun c => .ok (okExec c)
    cancelledAt := fun _ => false }

/-- Environment `envFinal` with the shared token already signaled. -/
def envCancelled : LoopEnv :=
  { envFinal with cancelledAt := fun _ => true }

/-- An environment whose reasoning component asks for `sampleCall` and
`sampleCall2` on the first turn and then finishes. -/
def envTwoCalls : LoopEnv :=
  { model := fun history _ =>
      if history.length ≤ 1 then .calls [sampleCall, sampleCall2] else .finalText "done"
    sendTool := fun c => .ok (okExec c)
    cancelledAt := fun _ => false }

/-- An environment driving the caller loop through the denying intervention
handler. -/
def envDenied : LoopEnv :=
  { model := fun _ _ => .calls [sampleCall]
    sendTool := interventionSend denyInput okExec
    cancelledAt := fun _ => false }

/-- A sample `ToolUseAgent` (no system messages). -/
def sampleAgent : ToolUseAgent :=
  ToolUseAgent.init "Tool Use Agent" [] [] { type := "tool_executor_agent" }
    { type := "tool_enabled_agent", key := "default" }

/-! # Theorems -/

/-! ## General lemmas about the embedded operations -/

/-- The last element of a list extended by one element. -/
theorem getLast?_append_single {α : Type} (l : List α) (a : α) :
    (l ++ [a]).getLast? = some a := by
  induction l with
  | nil => rfl
  | cons b l ih =>
    cases l with
    | nil => rfl
    | cons c l => simpa using ih

/-! ## Claim C2 — the intervention handler raises iff the user denies -/

/-- C2: for every `FunctionCall` intercepted by
`ToolInterventionHandler.on_send`, if the user's reply, stripped of
surrounding whitespace and lowercased, is not exactly `"y"`, `on_send` raises
a `ToolException` with content `"User denied tool execution."`, `call_id` the
call's id and `name` the call's name; otherwise it returns the message
unchanged. -/
theorem C2_on_send_raises_iff_denied (input : String → String) (fc : FunctionCall) :
    (pyToLower (pyStrip (input (interventionPrompt fc))) ≠ "y" →
      ToolInterventionHandler.on_send input (.funcCall fc) =
        .error { content := "User denied tool execution.", call_id := fc.id, name := fc.name }) ∧
    (pyToLower (pyStrip (input (interventionPrompt fc))) = "y" →
      ToolInterventionHandler.on_send input (.funcCall fc) = .ok (.funcCall fc)) := by
  constructor <;> intro h <;> simp [ToolInterventionHandler.on_send, h]

/-- C2, evaluated: the always-`"n"` user is denied (with the exception fields
from `sampleCall`), and the `" Y "` user is allowed, the message passing
through unchanged. -/
theorem C2_on_send_raises_iff_denied_witness :
    ToolInterventionHandler.on_send denyInput (.funcCall sampleCall) =
      .error { content := "User denied tool execution.", call_id := "1", name := "python_exec" } ∧
    ToolInterventionHandler.on_send allowInput (.funcCall sampleCall) =
      .ok (.funcCall sampleCall) :=
  ⟨(C2_on_send_raises_iff_denied denyInput sampleCall).1 (by decide),
   (C2_on_send_raises_iff_denied allowInput sampleCall).2 (by decide)⟩

/-- Resolution of an agent either finds the existing binding (runtime
unchanged) or lazily creates a fresh instance for a registered type. -/
theorem getAgent_cases {rt : Runtime} {i : AgentId} {rt' : Runtime} {a : AgentInstance}
    (h : getAgent rt i = some (rt', a)) :
    (findInst rt.instances i = some a ∧ rt' = rt) ∨
    (findInst rt.instances i = none ∧ rt.registered.contains i.type = true ∧
      a = { uid := rt.nextUid, id := i } ∧
      rt' = { rt with instances := (i, a) :: rt.instances, nextUid := rt.nextUid + 1 }) := by
  unfold getAgent at h
  split at h
  next b hf =>
    rw [Option.some.injEq, Prod.mk.injEq] at h
    rw [h.2] at hf
    exact Or.inl ⟨hf, h.1.symm⟩
  next hf =>
    split at h
    next hr =>
      rw [Option.some.injEq, Prod.mk.injEq] at h
      obtain ⟨h1, h2⟩ := h
      subst h2
      exact Or.inr ⟨hf, hr, rfl, h1.symm⟩
    next hr =>
      exact absurd h (by simp)

/-- Agent resolution never changes the lifecycle state, the handler chain,
the delivery log or the registered types. -/
theorem getAgent_preserves {rt : Runtime} {i : AgentId} {rt' : Runtime} {a : AgentInstance}
    (h : getAgent rt i = some (rt', a)) :
    rt'.state = rt.state ∧ rt'.handlers = rt.handlers ∧
      rt'.deliveries = rt.deliveries ∧ rt'.registered = rt.registered := by
  rcases getAgent_cases h with ⟨-, rfl⟩ | ⟨-, -, -, rfl⟩ <;> exact ⟨rfl, rfl, rfl, rfl⟩

/-- Operation `send` never changes the lifecycle state. -/
theorem send_message_state (beh : AgentBehavior) (rt : Runtime) (m : AppMessage)
    (r : AgentId) : (Runtime.send_message beh rt m r).1.state = rt.state := by
  unfold Runtime.send_message
  split
  · rfl
  · split
    · rfl
    · rfl
    · split
      · rfl
      next rt' a heq =>
        split
        · exact (getAgent_preserves heq).1
        · exact (getAgent_preserves heq).1

/-- A single publish fan-out delivery never changes the lifecycle state. -/
theorem deliverOne_state (rt : Runtime) (i : AgentId) (m : AppMessage) :
    (deliverOne rt i m).state = rt.state := by
  unfold deliverOne
  cases hg : getAgent rt i with
  | none => rfl
  | some pa =>
    obtain ⟨rt', a⟩ := pa
    exact (getAgent_preserves hg).1

/-- Folding publish deliveries over a subscriber list never changes the
lifecycle state. -/
theorem foldl_deliver_state (m : AppMessage) :
    ∀ (l : List AgentId) (rt : Runtime),
      (l.foldl (fun r i => deliverOne r i m) rt).state = rt.state
  | [], _ => rfl
  | i :: l, rt => (foldl_deliver_state m l (deliverOne rt i m)).trans (deliverOne_state rt i m)

/-- Operation `publish` never changes the lifecycle state. -/
theorem publish_state (rt : Runtime) (m : AppMessage) (topic : String) :
    (rt.publish m topic).1.state = rt.state := by
  unfold Runtime.publish
  by_cases hst : rt.state = .stopped
  · rw [if_pos hst]
  · rw [if_neg hst]
    exact foldl_deliver_state m _ rt

/-! ## Claim C6 — two-state lifecycle, sends rejected while stopped -/

/-- C6: the runtime's lifecycle is the two-state machine
`Stopped → Running` (on `start`) and `Running → Stopped` (on `stop`); no other
operation transitions the state (`send` and `publish` leave it unchanged),
and every `send` or `publish` while `Stopped` fails with the
"runtime not running" error and has no effect (the runtime is returned
exactly as it was). -/
theorem C6_lifecycle_two_state (beh : AgentBehavior) (rt : Runtime) (m : AppMessage)
    (r : AgentId) (topic : String) :
    rt.start.state = .running ∧
    rt.stop.state = .stopped ∧
    (Runtime.send_message beh rt m r).1.state = rt.state ∧
    (rt.publish m topic).1.state = rt.state ∧
    (rt.state = .stopped →
      Runtime.send_message beh rt m r = (rt, .failed .runtimeNotRunning) ∧
      rt.publish m topic = (rt, some .runtimeNotRunning)) := by
  refine ⟨rfl, rfl, send_message_state beh rt m r, publish_state rt m topic,
    fun hst => ⟨?_, ?_⟩⟩
  · unfold Runtime.send_message
    rw [if_pos hst]
  · unfold Runtime.publish
    rw [if_pos hst]

/-- C6, evaluated on a stopped runtime: `start` reaches `Running`, and both
`send` and `publish` on the stopped runtime fail with the
"runtime not running" error, returning the runtime unchanged. -/
theorem C6_lifecycle_two_state_witness :
    rtStopped.start.state = .running ∧
    Runtime.send_message sampleBeh rtStopped (.chat { content := "hi" }) sampleId =
      (rtStopped, .failed .runtimeNotRunning) ∧
    rtStopped.publish (.chat { content := "hi" }) "topic" =
      (rtStopped, some .runtimeNotRunning) := by
  have h := C6_lifecycle_two_state sampleBeh rtStopped (.chat { content := "hi" })
    sampleId "topic"
  exact ⟨h.1, (h.2.2.2.2 rfl).1, (h.2.2.2.2 rfl).2⟩

/-- Looking up an id right after it was bound at the head of the map. -/
theorem findInst_cons_self (l : List (AgentId × AgentInstance)) (i : AgentId)
    (a : AgentInstance) : findInst ((i, a) :: l) i = some a := by
  simp [findInst]

/-- An id already bound in the map resolves to its bound instance, with the
runtime unchanged. -/
theorem getAgent_of_findInst {rt : Runtime} {i : AgentId} {a : AgentInstance}
    (h : findInst rt.instances i = some a) : getAgent rt i = some (rt, a) := by
  unfold getAgent
  rw [h]

/-- Resolving any agent preserves every existing binding of the instance
map. -/
theorem getAgent_keeps_binding {rt : Runtime} {j : AgentId} {rt2 : Runtime}
    {b : AgentInstance} (hg : getAgent rt j = some (rt2, b)) {i : AgentId}
    {a : AgentInstance} (h : findInst rt.instances i = some a) :
    findInst rt2.instances i = some a := by
  rcases getAgent_cases hg with ⟨-, rfl⟩ | ⟨hnone, -, -, rfl⟩
  · exact h
  · by_cases hji : j = i
    · subst hji
      rw [h] at hnone
      exact absurd hnone (by simp)
    · simpa [findInst, hji] using h

/-- Operation `send` preserves every existing binding of the instance map. -/
theorem send_message_keeps_binding (beh : AgentBehavior) (rt : Runtime)
    (m : AppMessage) (r : AgentId) {i : AgentId} {a : AgentInstance}
    (h : findInst rt.instances i = some a) :
    findInst ((Runtime.send_message beh rt m r).1).instances i = some a := by
  unfold Runtime.send_message
  split
  · exact h
  · split
    · exact h
    · exact h
    · split
      · exact h
      next rt' b heq =>
        split
        · exact getAgent_keeps_binding heq h
        · exact getAgent_keeps_binding heq h

/-! ## Claim C7 — lazy creation, singleton instance per (type, key) -/

/-- C7: for every registered type and key, the agent instance is created
lazily on the first dispatch to that `(type, key)` pair, and every subsequent
dispatch resolves to the very same instance with the runtime unchanged;
moreover dispatches to other ids and `send` calls preserve the binding, so
the pair resolves to that instance for the lifetime of the runtime. -/
theorem C7_singleton_per_key (rt : Runtime) (i : AgentId) :
    (∀ (a : AgentInstance), findInst rt.instances i = some a →
      getAgent rt i = some (rt, a)) ∧
    (findInst rt.instances i = none → rt.registered.contains i.type = true →
      ∃ rt' a, getAgent rt i = some (rt', a) ∧ findInst rt'.instances i = some a) ∧
    (∀ (rt' : Runtime) (a : AgentInstance), getAgent rt i = some (rt', a) →
      getAgent rt' i = some (rt', a)) ∧
    (∀ (a : AgentInstance), findInst rt.instances i = some a →
      ∀ (j : AgentId) (rt2 : Runtime) (b : AgentInstance),
        getAgent rt j = some (rt2, b) → findInst rt2.instances i = some a) ∧
    (∀ (a : AgentInstance), findInst rt.instances i = some a →
      ∀ (beh : AgentBehavior) (m : AppMessage) (r : AgentId),
        findInst ((Runtime.send_message beh rt m r).1).instances i = some a) := by
  refine ⟨fun a h => getAgent_of_findInst h, ?_, ?_, ?_, ?_⟩
  · intro hnone hreg
    have hg : getAgent rt i =
        some ({ rt with
                  instances :=
                    (i, ({ uid := rt.nextUid, id := i } : AgentInstance)) :: rt.instances,
                  nextUid := rt.nextUid + 1 },
              { uid := rt.nextUid, id := i }) := by
      unfold getAgent
      rw [hnone, if_pos hreg]
    exact ⟨_, _, hg, findInst_cons_self ..⟩
  · intro rt' a hg
    rcases getAgent_cases hg with ⟨hf, rfl⟩ | ⟨-, -, -, rfl⟩
    · exact getAgent_of_findInst hf
    · exact getAgent_of_findInst (findInst_cons_self ..)
  · exact fun a ha j rt2 b hg => getAgent_keeps_binding hg ha
  · exact fun a ha beh m r => send_message_keeps_binding beh rt m r ha

/-- C7, evaluated: on the fresh runtime the pair
`("tool_executor_agent", "default")` has no instance; the first dispatch
creates one, and a second dispatch returns the very same instance with the
runtime unchanged. -/
theorem C7_singleton_per_key_witness :
    ∃ (rt' : Runtime) (a : AgentInstance),
      getAgent baseRt sampleId = some (rt', a) ∧
      findInst rt'.instances sampleId = some a ∧
      getAgent rt' sampleId = some (rt', a) := by
  obtain ⟨rt', a, hg, hf⟩ := (C7_singleton_per_key baseRt sampleId).2.1 rfl rfl
  exact ⟨rt', a, hg, hf, (C7_singleton_per_key baseRt sampleId).2.2.1 rt' a hg⟩

/-- Chaining pipelines: a prefix that forwards composes with the rest of the
chain, and the invocation counts add up. -/
theorem runPipeline_append {pre : List Hook} {m m' : AppMessage} {k : Nat}
    (h : runPipeline pre m = (.forward m', k)) (rest : List Hook) :
    runPipeline (pre ++ rest) m =
      ((runPipeline rest m').1, (runPipeline rest m').2 + k) := by
  induction pre generalizing m k with
  | nil =>
    rw [runPipeline] at h
    rw [Prod.mk.injEq] at h
    obtain ⟨h1, h2⟩ := h
    cases h1
    cases h2
    simp [List.nil_append]
  | cons hd tl ih =>
    rw [List.cons_append, runPipeline]
    rw [runPipeline] at h
    cases hh : hd m with
    | forward m2 =>
      rw [hh] at h
      dsimp only at h ⊢
      rcases hp : runPipeline tl m2 with ⟨r1, k1⟩
      rw [hp] at h
      dsimp only at h
      rw [Prod.mk.injEq] at h
      obtain ⟨h1, h2⟩ := h
      cases h1
      cases h2
      rw [ih hp]
      simp [Nat.add_assoc]
    | drop =>
      rw [hh] at h
      simp at h
    | fail e =>
      rw [hh] at h
      simp at h

/-! ## Claim C8 — drop skips the rest of the chain and completes as a no-op -/

/-- C8: when some intervention handler's hook returns the drop sentinel
(after a forwarding prefix of `k` invoked hooks), the subsequent handlers are
skipped (exactly `k + 1` hooks run), the target agent's handler is never
invoked (the runtime — in particular its delivery log — is returned
unchanged), and the `send` call completes with the `dropped` no-op outcome,
which is distinct from every failure outcome. -/
theorem C8_drop_is_noop (beh : AgentBehavior) (rt : Runtime) (pre post : List Hook)
    (h : Hook) (m m' : AppMessage) (r : AgentId) (k : Nat)
    (hrun : rt.state = .running)
    (hhooks : rt.handlers = pre ++ h :: post)
    (hpre : runPipeline pre m = (.forward m', k))
    (hdrop : h m' = .drop) :
    runPipeline rt.handlers m = (.drop, k + 1) ∧
    Runtime.send_message beh rt m r = (rt, .dropped) ∧
    (∀ (e : RTError), (SendOutcome.dropped : SendOutcome) ≠ .failed e) := by
  have hpipe : runPipeline rt.handlers m = (.drop, k + 1) := by
    rw [hhooks, runPipeline_append hpre (h :: post), runPipeline, hdrop]
    rw [Prod.mk.injEq]
    exact ⟨rfl, Nat.add_comm 1 k⟩
  refine ⟨hpipe, ?_, fun e he => SendOutcome.noConfusion he⟩
  unfold Runtime.send_message
  rw [if_neg (by rw [hrun]; exact fun hx => RunState.noConfusion hx), hpipe]

/-- C8, evaluated: on the runtime whose chain is the single always-drop hook,
sending a chat message resolves to the `dropped` no-op, the runtime (and its
delivery log) unchanged. -/
theorem C8_drop_is_noop_witness :
    runPipeline rtDrop.handlers (.chat { content := "hi" }) = (.drop, 1) ∧
    Runtime.send_message sampleBeh rtDrop (.chat { content := "hi" }) sampleId =
      (rtDrop, .dropped) := by
  have h := C8_drop_is_noop sampleBeh rtDrop [] [] dropHook
    (.chat { content := "hi" }) (.chat { content := "hi" }) sampleId 0
    rfl rfl rfl rfl
  exact ⟨h.1, h.2.1⟩

/-! ## Claim C9 — `system_messages` do not influence `handle_user_message` -/

/-- C9: `handle_user_message` builds the caller loop's input history as the
single `UserMessage` from the incoming message's content, so two
`ToolUseAgent` instances differing only in their `system_messages` behave
identically on every input message. -/
theorem C9_system_messages_noninterference (env : LoopEnv) (fuel : Nat)
    (msg : Message) (desc : String) (sys1 sys2 : List SystemMessage)
    (schema : List ToolSchema) (tat : AgentType) (selfId : AgentId) :
    (ToolUseAgent.init desc sys1 schema tat selfId).handle_user_message env fuel msg =
      (ToolUseAgent.init desc sys2 schema tat selfId).handle_user_message env fuel msg := rfl

/-! ## Claim C10 — the tool agent id shares the agent's own key -/

/-- C10: `ToolUseAgent.__init__` fixes the tool agent's id as
`AgentId(type=tool_agent_type, key=self.id.key)`; hence the target's key
always equals the agent's own key, and two agents with distinct keys target
distinct tool agent ids (per-key isolation). -/
theorem C10_tool_agent_id_same_key (desc : String) (sys : List SystemMessage)
    (schema : List ToolSchema) (tat : AgentType) (selfId : AgentId) :
    (ToolUseAgent.init desc sys schema tat selfId).tool_agent_id =
      { type := tat.type, key := selfId.key } ∧
    (ToolUseAgent.init desc sys schema tat selfId).tool_agent_id.key = selfId.key ∧
    (∀ (desc2 : String) (sys2 : List SystemMessage) (schema2 : List ToolSchema)
        (selfId2 : AgentId), selfId.key ≠ selfId2.key →
      (ToolUseAgent.init desc sys schema tat selfId).tool_agent_id ≠
        (ToolUseAgent.init desc2 sys2 schema2 tat selfId2).tool_agent_id) := by
  refine ⟨rfl, rfl, ?_⟩
  intro _ _ _ selfId2 hne heq
  have h2 := congrArg AgentId.key heq
  exact hne h2

/-- C10, evaluated: a `ToolUseAgent` keyed `"default"` targets the tool agent
`("tool_executor_agent", "default")`, distinct from the target of an agent
keyed `"other"`. -/
theorem C10_tool_agent_id_same_key_witness :
    (ToolUseAgent.init "d" [] [] { type := "tool_executor_agent" }
        { type := "tool_enabled_agent", key := "default" }).tool_agent_id =
      { type := "tool_executor_agent", key := "default" } ∧
    (ToolUseAgent.init "d" [] [] { type := "tool_executor_agent" }
        { type := "tool_enabled_agent", key := "default" }).tool_agent_id ≠
      (ToolUseAgent.init "d" [] [] { type := "tool_executor_agent" }
        { type := "tool_enabled_agent", key := "other" }).tool_agent_id :=
  ⟨(C10_tool_agent_id_same_key "d" [] [] { type := "tool_executor_agent" }
      { type := "tool_enabled_agent", key := "default" }).1,
   (C10_tool_agent_id_same_key "d" [] [] { type := "tool_executor_agent" }
      { type := "tool_enabled_agent", key := "default" }).2.2 "d" [] []
      { type := "tool_enabled_agent", key := "other" } (by decide)⟩

/-- A signaled token stays signaled under every sequence of token
operations (`cancel` is the only mutator). -/
theorem applyOps_keeps_signaled : ∀ (ops : List TokenOp) (t : CancellationToken),
    t.signaled = true → (t.applyOps ops).signaled = true
  | [], _, h => h
  | .cancel :: ops, t, _ => applyOps_keeps_signaled ops t.cancel rfl

/-! ## Claim C5 — cancellation fails fast and is permanent -/

/-- C5: if the shared token is signaled before a suspension point of the
caller loop — the reasoning-component call, or any tool send — that point
fails with `cancelled` and no sends are issued from it on; the loop never
completes normally from a signaled point (for any fuel); and the token, once
signaled, never un-signals under any sequence of token operations. -/
theorem C5_cancellation_stops_loop (env : LoopEnv) (t : CancellationToken)
    (ops : List TokenOp) (fuel : Nat) (history : List LLMMessage)
    (schema : List ToolSchema) (n : Nat) (c : FunctionCall)
    (rest : List FunctionCall) (hsig : env.cancelledAt n = true) :
    (t.signaled = true → (t.applyOps ops).signaled = true) ∧
    tool_agent_caller_loop env (fuel + 1) history schema n = (.err .cancelled, []) ∧
    runCalls env n (c :: rest) = (.error .cancelled, n, []) ∧
    (∀ (f : Nat) (msgs : List LLMMessage),
      (tool_agent_caller_loop env f history schema n).1 ≠ .ok msgs) := by
  refine ⟨fun h => applyOps_keeps_signaled ops t h, ?_, ?_, ?_⟩
  · rw [tool_agent_caller_loop, if_pos hsig]
  · rw [runCalls, if_pos hsig]
  · intro f msgs
    cases f with
    | zero =>
      rw [tool_agent_caller_loop]
      exact fun hx => LoopResult.noConfusion hx
    | succ f =>
      rw [tool_agent_caller_loop, if_pos hsig]
      exact fun hx => LoopResult.noConfusion hx

/-- C5, evaluated: with the token already signaled, the loop's first
suspension point fails with `cancelled` and issues no sends, a pending
one-call turn fails the same way, and a signaled token stays signaled after
a further `cancel`. -/
theorem C5_cancellation_stops_loop_witness :
    (CancellationToken.applyOps { signaled := true } [.cancel]).signaled = true ∧
    tool_agent_caller_loop envCancelled 1 [] [] 0 = (.err .cancelled, []) ∧
    runCalls envCancelled 0 [sampleCall] = (.error .cancelled, 0, []) ∧
    (tool_agent_caller_loop envCancelled 5 [] [] 0).1 ≠ .ok [] := by
  have h := C5_cancellation_stops_loop envCancelled { signaled := true } [.cancel]
    0 [] [] 0 sampleCall [] rfl
  exact ⟨h.1 rfl, h.2.1, h.2.2.1, h.2.2.2 5 []⟩

/-- Whenever the caller loop returns normally, the returned history ends with
the assistant's final text message. -/
theorem loop_ok_ends_with_final :
    ∀ (fuel : Nat) (env : LoopEnv) (history : List LLMMessage)
      (schema : List ToolSchema) (n : Nat) (msgs : List LLMMessage)
      (tr : List FunctionCall),
      tool_agent_caller_loop env fuel history schema n = (.ok msgs, tr) →
      ∃ s, msgs.getLast? = some (.assistantText s "assistant") := by
  intro fuel
  induction fuel with
  | zero =>
    intro env history schema n msgs tr h
    rw [tool_agent_caller_loop] at h
    exact absurd h (by simp)
  | succ fuel ih =>
    intro env history schema n msgs tr h
    rw [tool_agent_caller_loop] at h
    by_cases hc : env.cancelledAt n = true
    · rw [if_pos hc] at h
      exact absurd h (by simp)
    · rw [if_neg hc] at h
      cases hm : env.model history schema with
      | finalText s =>
        rw [hm] at h
        dsimp only at h
        rw [Prod.mk.injEq] at h
        obtain ⟨h1, -⟩ := h
        injection h1 with h1
        exact ⟨s, by rw [← h1]; exact getLast?_append_single ..⟩
      | calls cs =>
        rw [hm] at h
        dsimp only at h
        rcases hr : runCalls env (n + 1) cs with ⟨res, n1, tr1⟩
        rw [hr] at h
        cases res with
        | ok rs =>
          dsimp only at h
          rcases hnext : tool_agent_caller_loop env fuel
            (history ++ [.assistantCalls cs "assistant", .functionResults rs])
            schema n1 with ⟨res2, tr2⟩
          rw [hnext] at h
          dsimp only at h
          rw [Prod.mk.injEq] at h
          obtain ⟨h1, -⟩ := h
          subst h1
          exact ih env _ schema n1 msgs tr2 hnext
        | error e =>
          dsimp only at h
          exact absurd h (by simp)

/-! ## Claim C4 — a normal return ends with final text, the assert holds -/

/-- C4: whenever `tool_agent_caller_loop` returns normally, the last element
of the returned history is the assistant's final message with textual
content; consequently `handle_user_message`'s
`assert isinstance(final_response, str)` never fails and the handler returns
a `Message` carrying exactly that final text. -/
theorem C4_normal_return_is_final_text (env : LoopEnv) (agent : ToolUseAgent)
    (fuel : Nat) (message : Message) (msgs : List LLMMessage)
    (tr : List FunctionCall)
    (h : tool_agent_caller_loop env fuel [.user message.content "User"]
        agent.tool_schema 0 = (.ok msgs, tr)) :
    ∃ s, msgs.getLast? = some (.assistantText s "assistant") ∧
      agent.handle_user_message env fuel message = .ok { content := s } := by
  obtain ⟨s, hs⟩ := loop_ok_ends_with_final fuel env _ _ 0 msgs tr h
  refine ⟨s, hs, ?_⟩
  unfold ToolUseAgent.handle_user_message
  dsimp only
  rw [h]
  dsimp only
  rw [hs]
  rfl

/-- C4, evaluated: a reasoning component that immediately answers `"done"`
makes the loop return a history ending in that final text, and
`handle_user_message` returns `Message "done"`. -/
theorem C4_normal_return_is_final_text_witness :
    ∃ s, ([LLMMessage.user "hi" "User",
            LLMMessage.assistantText "done" "assistant"].getLast?
          = some (.assistantText s "assistant")) ∧
      sampleAgent.handle_user_message envFinal 1 { content := "hi" } =
        .ok { content := s } :=
  C4_normal_return_is_final_text envFinal sampleAgent 1 { content := "hi" }
    [LLMMessage.user "hi" "User", LLMMessage.assistantText "done" "assistant"] [] rfl

/-- When a turn's calls all complete (no fatal failure), the issued sends are
exactly the calls in the order given, one result is produced per call in the
same order, and — provided the tool agent's contract correlates results by
id — the i-th result's `call_id` is the i-th call's `id`. -/
theorem runCalls_ok_correlated (env : LoopEnv)
    (hok : ∀ (c : FunctionCall) (r : ToolResult),
      env.sendTool c = .ok r → r.call_id = c.id)
    (hfail : ∀ (c : FunctionCall) (cid nm reason : String),
      env.sendTool c = .error (.toolExecutionFailed cid nm reason) → cid = c.id) :
    ∀ (cs : List FunctionCall) (n n' : Nat) (rs : List ToolResult)
      (tr : List FunctionCall),
      runCalls env n cs = (.ok rs, n', tr) →
      tr = cs ∧ rs.length = cs.length ∧
      (∀ (i : Nat) (h1 : i < rs.length) (h2 : i < cs.length),
        (rs.get ⟨i, h1⟩).call_id = (cs.get ⟨i, h2⟩).id) := by
  intro cs
  induction cs with
  | nil =>
    intro n n' rs tr h
    rw [runCalls] at h
    rw [Prod.mk.injEq, Prod.mk.injEq] at h
    obtain ⟨h1, -, h3⟩ := h
    injection h1 with h1
    subst h1
    subst h3
    exact ⟨rfl, rfl, fun i hh1 hh2 => absurd hh2 (Nat.not_lt_zero i)⟩
  | cons c rest ih =>
    intro n n' rs tr h
    rw [runCalls] at h
    by_cases hc : env.cancelledAt n = true
    · rw [if_pos hc] at h
      exact absurd h (by simp)
    · rw [if_neg hc] at h
      cases hs : env.sendTool c with
      | ok r =>
        rw [hs] at h
        dsimp only at h
        rcases hrec : runCalls env (n + 1) rest with ⟨res, n1, tr1⟩
        rw [hrec] at h
        cases res with
        | ok rs1 =>
          dsimp only at h
          rw [Prod.mk.injEq, Prod.mk.injEq] at h
          obtain ⟨h1, -, h3⟩ := h
          injection h1 with h1
          subst h1
          subst h3
          obtain ⟨ih1, ih2, ih3⟩ := ih (n + 1) n1 rs1 tr1 hrec
          refine ⟨by rw [ih1], by simp [ih2], ?_⟩
          intro i hh1 hh2
          cases i with
          | zero => exact hok c r hs
          | succ i =>
            exact ih3 i (Nat.lt_of_succ_lt_succ hh1) (Nat.lt_of_succ_lt_succ hh2)
        | error e =>
          dsimp only at h
          exact absurd h (by simp)
      | error e =>
        rw [hs] at h
        cases e with
        | toolExecutionFailed cid nm reason =>
          dsimp only at h
          rcases hrec : runCalls env (n + 1) rest with ⟨res, n1, tr1⟩
          rw [hrec] at h
          cases res with
          | ok rs1 =>
            dsimp only at h
            rw [Prod.mk.injEq, Prod.mk.injEq] at h
            obtain ⟨h1, -, h3⟩ := h
            injection h1 with h1
            subst h1
            subst h3
            obtain ⟨ih1, ih2, ih3⟩ := ih (n + 1) n1 rs1 tr1 hrec
            refine ⟨by rw [ih1], by simp [ih2], ?_⟩
            intro i hh1 hh2
            cases i with
            | zero => exact hfail c cid nm reason hs
            | succ i =>
              exact ih3 i (Nat.lt_of_succ_lt_succ hh1) (Nat.lt_of_succ_lt_succ hh2)
          | error e2 =>
            dsimp only at h
            exact absurd h (by simp)
        | runtimeNotRunning => simp at h
        | unhandledMessageType => simp at h
        | interventionAborted p => simp at h
        | cancelled => simp at h
        | handlerFailed => simp at h

/-! ## Claim C3 — N calls, N ordered sends, N results correlated by id -/

/-- C3: for a turn in which the reasoning component returns the calls `cs`
and every call completes, the caller loop issues exactly the sends `cs` in
the order given, appends exactly one `functionResults` history entry holding
one result per call in that same order, and — under the tool agent's
contract of correlating results by id — the i-th result's `call_id` equals
the i-th call's `id` (matching is by call id, not by position). -/
theorem C3_sends_in_order_matched_by_call_id (env : LoopEnv)
    (hok : ∀ (c : FunctionCall) (r : ToolResult),
      env.sendTool c = .ok r → r.call_id = c.id)
    (hfail : ∀ (c : FunctionCall) (cid nm reason : String),
      env.sendTool c = .error (.toolExecutionFailed cid nm reason) → cid = c.id)
    (fuel n n' : Nat) (history : List LLMMessage) (schema : List ToolSchema)
    (cs tr : List FunctionCall) (rs : List ToolResult)
    (hturn : env.model history schema = .calls cs)
    (hnc : env.cancelledAt n = false)
    (hrun : runCalls env (n + 1) cs = (.ok rs, n', tr)) :
    tr = cs ∧
    rs.length = cs.length ∧
    (∀ (i : Nat) (h1 : i < rs.length) (h2 : i < cs.length),
      (rs.get ⟨i, h1⟩).call_id = (cs.get ⟨i, h2⟩).id) ∧
    tool_agent_caller_loop env (fuel + 1) history schema n =
      ((tool_agent_caller_loop env fuel
          (history ++ [.assistantCalls cs "assistant", .functionResults rs])
          schema n').1,
        cs ++ (tool_agent_caller_loop env fuel
          (history ++ [.assistantCalls cs "assistant", .functionResults rs])
          schema n').2) := by
  obtain ⟨h1, h2, h3⟩ :=
    runCalls_ok_correlated env hok hfail cs (n + 1) n' rs tr hrun
  refine ⟨h1, h2, h3, ?_⟩
  rw [tool_agent_caller_loop, if_neg (by simp [hnc])]
  rw [hturn]
  dsimp only
  rw [hrun]
  dsimp only
  rw [h1]

/-- C3, evaluated: a turn returning the two sample calls issues exactly those
two sends in order, produces two results whose call ids are `"1"` and `"2"`
respectively, and the loop appends them as one `functionResults` entry. -/
theorem C3_sends_in_order_matched_by_call_id_witness :
    ([sampleCall, sampleCall2] : List FunctionCall) = [sampleCall, sampleCall2] ∧
    ([okExec sampleCall, okExec sampleCall2] : List ToolResult).length =
      ([sampleCall, sampleCall2] : List FunctionCall).length ∧
    (([okExec sampleCall, okExec sampleCall2] : List ToolResult).get
        ⟨0, by decide⟩).call_id =
      (([sampleCall, sampleCall2] : List FunctionCall).get ⟨0, by decide⟩).id ∧
    (([okExec sampleCall, okExec sampleCall2] : List ToolResult).get
        ⟨1, by decide⟩).call_id =
      (([sampleCall, sampleCall2] : List FunctionCall).get ⟨1, by decide⟩).id ∧
    tool_agent_caller_loop envTwoCalls 1 [] [] 0 =
      ((tool_agent_caller_loop envTwoCalls 0
          [.assistantCalls [sampleCall, sampleCall2] "assistant",
           .functionResults [okExec sampleCall, okExec sampleCall2]] [] 3).1,
        [sampleCall, sampleCall2] ++ (tool_agent_caller_loop envTwoCalls 0
          [.assistantCalls [sampleCall, sampleCall2] "assistant",
           .functionResults [okExec sampleCall, okExec sampleCall2]] [] 3).2) := by
  have h := C3_sends_in_order_matched_by_call_id envTwoCalls
    (fun c r hh => by injection hh with hh; rw [← hh]; rfl)
    (fun c cid nm reason hh => by exact Except.noConfusion hh)
    0 0 3 [] [] [sampleCall, sampleCall2] [sampleCall, sampleCall2]
    [okExec sampleCall, okExec sampleCall2] rfl rfl rfl
  exact ⟨h.1, h.2.1, h.2.2.1 0 (by decide) (by decide),
    h.2.2.1 1 (by decide) (by decide), h.2.2.2⟩

/-! ## Claim C1 — a handler failure aborts the send and the whole loop -/

/-- C1: when the cookbook's intervention handler raises on a `FunctionCall`
(the user denies), the runtime `send` aborts with `interventionAborted`
before any message reaches the recipient — the runtime, and in particular
its delivery log, is returned unchanged, so the tool is never executed — and
the caller loop driven through that handler fails as a whole with the same
error after the one aborted send, which `handle_user_message` propagates to
its own caller instead of recovering. -/
theorem C1_handler_failure_aborts_chain (beh : AgentBehavior) (rt : Runtime)
    (input : String → String) (toolExec : FunctionCall → ToolResult)
    (fc : FunctionCall) (rest : List FunctionCall) (recipient : AgentId)
    (model : List LLMMessage → List ToolSchema → LLMResult)
    (history : List LLMMessage) (schema : List ToolSchema) (fuel n : Nat)
    (agent : ToolUseAgent) (message : Message)
    (hdeny : pyToLower (pyStrip (input (interventionPrompt fc))) ≠ "y")
    (hstate : rt.state = .running)
    (hhooks : rt.handlers = [toolInterventionHook input])
    (hmodel : model history schema = .calls (fc :: rest))
    (hmodel2 : model [.user message.content "User"] agent.tool_schema =
      .calls (fc :: rest)) :
    Runtime.send_message beh rt (.funcCall fc) recipient =
      (rt, .failed (.interventionAborted
        { content := "User denied tool execution.", call_id := fc.id, name := fc.name })) ∧
    tool_agent_caller_loop (interventionEnv model input toolExec) (fuel + 1)
        history schema n =
      (.err (.interventionAborted
        { content := "User denied tool execution.", call_id := fc.id, name := fc.name }),
       [fc]) ∧
    agent.handle_user_message (interventionEnv model input toolExec) (fuel + 1)
        message =
      .error (.loopError (.interventionAborted
        { content := "User denied tool execution.", call_id := fc.id, name := fc.name })) := by
  have hsend : ToolInterventionHandler.on_send input (.funcCall fc) =
      .error { content := "User denied tool execution.", call_id := fc.id,
               name := fc.name } := by
    unfold ToolInterventionHandler.on_send
    dsimp only
    rw [if_pos hdeny]
  have hloop : ∀ (history2 : List LLMMessage) (schema2 : List ToolSchema)
      (n2 fuel2 : Nat), model history2 schema2 = .calls (fc :: rest) →
      tool_agent_caller_loop (interventionEnv model input toolExec) (fuel2 + 1)
          history2 schema2 n2 =
        (.err (.interventionAborted
          { content := "User denied tool execution.", call_id := fc.id,
            name := fc.name }), [fc]) := by
    intro history2 schema2 n2 fuel2 hm
    rw [tool_agent_caller_loop]
    rw [if_neg (by simp [interventionEnv])]
    dsimp only [interventionEnv]
    rw [hm]
    dsimp only
    rw [runCalls]
    rw [if_neg (by simp)]
    dsimp only [interventionSend]
    rw [hsend]
  refine ⟨?_, hloop history schema n fuel hmodel, ?_⟩
  · unfold Runtime.send_message
    rw [if_neg (by rw [hstate]; exact fun hx => RunState.noConfusion hx)]
    have hpipe : (runPipeline rt.handlers (.funcCall fc)).1 =
        .fail { content := "User denied tool execution.", call_id := fc.id,
                name := fc.name } := by
      rw [hhooks, runPipeline]
      unfold toolInterventionHook
      rw [hsend]
    rw [hpipe]
  · unfold ToolUseAgent.handle_user_message
    dsimp only
    rw [hloop [.user message.content "User"] agent.tool_schema 0 fuel hmodel2]

/-- C1, evaluated: with the always-denying user, sending `sampleCall` through
the runtime whose chain holds the cookbook handler aborts with
`interventionAborted` (runtime unchanged), and the caller loop / message
handler driven through the same handler fail with that same error after the
single aborted send — the tool executor is never reached. -/
theorem C1_handler_failure_aborts_chain_witness :
    Runtime.send_message sampleBeh rtIntervene (.funcCall sampleCall) sampleId =
      (rtIntervene, .failed (.interventionAborted
        { content := "User denied tool execution.", call_id := "1",
          name := "python_exec" })) ∧
    tool_agent_caller_loop envDenied 1 [] [] 0 =
      (.err (.interventionAborted
        { content := "User denied tool execution.", call_id := "1",
          name := "python_exec" }), [sampleCall]) ∧
    sampleAgent.handle_user_message envDenied 1 { content := "hi" } =
      .error (.loopError (.interventionAborted
        { content := "User denied tool execution.", call_id := "1",
          name := "python_exec" })) := by
  have h := C1_handler_failure_aborts_chain sampleBeh rtIntervene denyInput okExec
    sampleCall [] sampleId (fun _ _ => .calls [sampleCall]) [] [] 0 0
    sampleAgent { content := "hi" } (by decide) rfl rfl rfl rfl
  exact h

end Autogen
